import Mathlib

/-!
Verification of the SpotifyWellness background-job and aggregation pipeline.

This file shallowly embeds the parts of the repository that the verified
properties are about:

* the pure Aggregation Engine of `src/tasks/spotify_tasks.py`
  (`calculate_audio_feature_stats`, `extract_genre_distribution`,
  `calculate_mood_patterns`, `calculate_diversity_scores`);
* the Celery task bodies `ingest_listening_data` (spotify_tasks.py),
  `generate_wellness_insight`, `generate_roast`,
  `generate_productivity_insight` (insight_tasks.py), modelled as functions
  from an environment (database contents and outcomes of the external calls)
  to the sequence of BackgroundJob status writes, the task result, and the
  rows the task creates;
* the Celery retry configuration of the `SpotifyTask` and `InsightTask`
  base classes.

Python floats are idealised: values that stay rational (feature values,
genre fractions, the artist-diversity arithmetic) are modelled over `ℚ`,
while the entropy computation (`math.log2`) and the standard deviation
(`statistics.stdev`) are modelled over `ℝ`.  Python `round(x, 3)` rounds
half to even; it is modelled exactly (on the idealised values) by
`pyRound3` below.
-/

/-! ## Rounding: Python `round(x, 3)` (half to even), over `ℚ` and `ℝ` -/

/-- The integer nearest to `y`, ties to even — the rounding mode of Python
`round`. -/
def pyRoundInt {α : Type} [LinearOrderedField α] [FloorRing α] (y : α) : ℤ :=
  if 1/2 < y - ⌊y⌋ then ⌊y⌋ + 1
  else if y - ⌊y⌋ < 1/2 then ⌊y⌋
  else if ⌊y⌋ % 2 = 0 then ⌊y⌋ else ⌊y⌋ + 1

/-- Python `round(x, 3)` on the idealised (exact) value: scale by 1000,
round half to even, scale back.  Instantiated at `ℚ` and at `ℝ`. -/
def pyRound3 {α : Type} [LinearOrderedField α] [FloorRing α] (x : α) : α :=
  (pyRoundInt (1000 * x) : α) / 1000

theorem pyRoundInt_intCast {α : Type} [LinearOrderedField α] [FloorRing α]
    (k : ℤ) : pyRoundInt (k : α) = k := by
  simp [pyRoundInt]

theorem pyRound3_int_div {α : Type} [LinearOrderedField α] [FloorRing α]
    (k : ℤ) : pyRound3 ((k : α) / 1000) = (k : α) / 1000 := by
  unfold pyRound3
  rw [show (1000 : α) * ((k : α) / 1000) = (k : α) by ring, pyRoundInt_intCast]

theorem pyRound3_exists_int {α : Type} [LinearOrderedField α] [FloorRing α]
    (x : α) : ∃ k : ℤ, pyRound3 x = (k : α) / 1000 :=
  ⟨pyRoundInt (1000 * x), rfl⟩

theorem pyRound3_eq_down {α : Type} [LinearOrderedField α] [FloorRing α]
    (x : α) (n : ℤ) (h₁ : (n : α) ≤ 1000 * x) (h₂ : 1000 * x < (n : α) + 1/2) :
    pyRound3 x = (n : α) / 1000 := by
  have hf : ⌊1000 * x⌋ = n := Int.floor_eq_iff.mpr ⟨h₁, by linarith⟩
  unfold pyRound3 pyRoundInt
  rw [hf, if_neg (by linarith), if_pos (by linarith)]

theorem pyRound3_eq_up {α : Type} [LinearOrderedField α] [FloorRing α]
    (x : α) (n : ℤ) (h₁ : (n : α) + 1/2 < 1000 * x) (h₂ : 1000 * x < (n : α) + 1) :
    pyRound3 x = ((n : α) + 1) / 1000 := by
  have hf : ⌊1000 * x⌋ = n := Int.floor_eq_iff.mpr ⟨by linarith, by linarith⟩
  unfold pyRound3 pyRoundInt
  rw [hf, if_pos (by linarith)]
  push_cast
  ring

/-! ## Data model of the Aggregation Engine inputs

A Spotify audio-feature record is a dict that may or may not contain each
tracked key (`sp.audio_features` can return partial rows); each field is
therefore an `Option`.  An artist record carries its `genres` list and an
identifier (only `genres` and the number of records are read by the
aggregation code). -/

inductive FeatureName
  | valence | energy | danceability | acousticness
  | instrumentalness | speechiness | tempo | loudness
deriving DecidableEq, Repr

structure TrackFeatures where
  valence : Option ℚ := none
  energy : Option ℚ := none
  danceability : Option ℚ := none
  acousticness : Option ℚ := none
  instrumentalness : Option ℚ := none
  speechiness : Option ℚ := none
  tempo : Option ℚ := none
  loudness : Option ℚ := none
deriving DecidableEq, Repr

/-- Dictionary access `f[feature]` / `feature in f` for the eight tracked keys. -/
def TrackFeatures.get (t : TrackFeatures) : FeatureName → Option ℚ
  | .valence => t.valence
  | .energy => t.energy
  | .danceability => t.danceability
  | .acousticness => t.acousticness
  | .instrumentalness => t.instrumentalness
  | .speechiness => t.speechiness
  | .tempo => t.tempo
  | .loudness => t.loudness

structure Artist where
  id : String
  genres : List String
deriving DecidableEq, Repr

/-! ## `calculate_audio_feature_stats` (spotify_tasks.py lines 173-194) -/

/-- The list `values = [f[feature] for f in audio_features if feature in f]`. -/
def featureValues (audio_features : List TrackFeatures) (f : FeatureName) : List ℚ :=
  audio_features.filterMap (fun t => t.get f)

/-- `statistics.mean values`. -/
def listMean (l : List ℚ) : ℚ := l.sum / l.length

/-- Python `min(values)` on a non-empty list (0 on `[]`, unreachable in the code). -/
def listMin : List ℚ → ℚ
  | [] => 0
  | x :: xs => xs.foldl min x

/-- Python `max(values)` on a non-empty list (0 on `[]`, unreachable in the code). -/
def listMax : List ℚ → ℚ
  | [] => 0
  | x :: xs => xs.foldl max x

/-- Sample standard deviation `statistics.stdev values` (n-1 denominator). -/
noncomputable def sampleStdev (l : List ℚ) : ℝ :=
  Real.sqrt ((l.map (fun x => ((x : ℝ) - (listMean l : ℝ)) ^ 2)).sum / ((l.length : ℝ) - 1))

structure FeatureStats where
  avg : ℚ
  std : ℝ
  min : ℚ
  max : ℚ

/-- Embeds `calculate_audio_feature_stats`: `{}` on an empty batch, and for
each tracked feature an `avg_/std_/min_/max_` entry over the tracks that
report the feature, present only when at least one track reports it.  The
flat string-keyed dict is modelled as a map from `FeatureName` to an
optional entry. -/
noncomputable def calculate_audio_feature_stats
    (audio_features : List TrackFeatures) (f : FeatureName) : Option FeatureStats :=
  if audio_features.isEmpty then none
  else
    let values := featureValues audio_features f
    if values.isEmpty then none
    else some
      { avg := listMean values
        std := if 1 < values.length then sampleStdev values else 0
        min := listMin values
        max := listMax values }

/-! ## `extract_genre_distribution` (spotify_tasks.py lines 197-218) -/

/-- The `genre_counts` dict: ordered by first encounter, one count per tag
occurrence.  Models the insertion-ordered Python dict as an association
list. -/
def addGenre (acc : List (String × Nat)) (g : String) : List (String × Nat) :=
  if acc.any (fun p => p.1 == g) then
    acc.map (fun p => if p.1 == g then (p.1, p.2 + 1) else p)
  else acc ++ [(g, 1)]

def genreCounts (artists : List Artist) : List (String × Nat) :=
  artists.foldl (fun acc a => a.genres.foldl addGenre acc) []

/-- Embeds `extract_genre_distribution`: count tag occurrences, normalise by
the total number of occurrences, round to 3 decimals, sort by fraction
descending (Python `sorted` is stable, so ties keep first-encounter order)
and keep the top 10. -/
def extract_genre_distribution (artists : List Artist) : List (String × ℚ) :=
  let counts := genreCounts artists
  let total := (counts.map (fun p => p.2)).sum
  if total = 0 then []
  else
    let genre_distribution :=
      counts.map (fun p => (p.1, pyRound3 ((p.2 : ℚ) / (total : ℚ))))
    (genre_distribution.mergeSort (fun a b => decide (b.2 ≤ a.2))).take 10

/-! ## `calculate_mood_patterns` (spotify_tasks.py lines 221-286) -/

inductive MoodLabel
  | happy | sad | energetic | calm | focused | other
deriving DecidableEq, Repr

structure MoodEntry where
  percentage : ℚ
  track_count : Nat
deriving DecidableEq, Repr

/-- Whether one track counts toward one mood label, mirroring the
`if`/`elif` chains of the loop body (lines 241-270): `sad` is only tested
when `happy` fails, `calm` only when `energetic` fails, `focused` is
independent, and `other` fires only when no rule matched.  Missing feature
fields default to 0.5. -/
def trackHasMood (t : TrackFeatures) (l : MoodLabel) : Bool :=
  let valence := t.valence.getD (1/2)
  let energy := t.energy.getD (1/2)
  let danceability := t.danceability.getD (1/2)
  let acousticness := t.acousticness.getD (1/2)
  let speechiness := t.speechiness.getD (1/2)
  let happy := valence > 3/5 && energy > 3/5
  let sad := !happy && (valence < 2/5 && energy < 1/2)
  let energetic := energy > 7/10 && danceability > 3/5
  let calm := !energetic && (energy < 2/5 && acousticness > 1/2)
  let focused := speechiness < 3/10 && (3/10 ≤ energy && energy ≤ 7/10)
  match l with
  | .happy => happy
  | .sad => sad
  | .energetic => energetic
  | .calm => calm
  | .focused => focused
  | .other => !(happy || sad || energetic || calm || focused)

def moodCount (audio_features : List TrackFeatures) (l : MoodLabel) : Nat :=
  audio_features.countP (fun t => trackHasMood t l)

/-- Embeds `calculate_mood_patterns`: `{}` on an empty batch, otherwise one
entry per label with a positive count, in the fixed key order of the
`mood_counts` dict literal, carrying the rounded per-label fraction and the
exact track count. -/
def calculate_mood_patterns (audio_features : List TrackFeatures) :
    List (MoodLabel × MoodEntry) :=
  let total_tracks := audio_features.length
  if total_tracks = 0 then []
  else
    [MoodLabel.happy, MoodLabel.sad, MoodLabel.energetic,
     MoodLabel.calm, MoodLabel.focused, MoodLabel.other].filterMap
      (fun l =>
        let c := moodCount audio_features l
        if c > 0 then
          some (l, { percentage := pyRound3 ((c : ℚ) / (total_tracks : ℚ)),
                     track_count := c })
        else none)

/-! ## `calculate_diversity_scores` (spotify_tasks.py lines 289-309) -/

/-- The `genre_entropy` accumulator: `-p * log2 p` summed over the positive
fractions in `genres.values()`. -/
noncomputable def genreEntropy (ps : List ℝ) : ℝ :=
  (ps.map (fun p => if 0 < p then -(p * Real.logb 2 p) else 0)).sum

/-- The `artist_diversity` value of line 293, before rounding:
`min(len(artists) / 50.0, 1.0)`. -/
noncomputable def artistDiversityUnrounded (artists : List Artist) : ℝ :=
  min ((artists.length : ℝ) / 50) 1

/-- The `mood_diversity` value of line 304, before rounding:
`min(genre_entropy / 3.32, 1.0) if genre_entropy > 0 else 0.0`.  The
divisor is the literal constant `3.32` of the source. -/
noncomputable def moodDiversityUnrounded (genres : List (String × ℚ)) : ℝ :=
  let genre_entropy := genreEntropy (genres.map (fun p => ((p.2 : ℚ) : ℝ)))
  if 0 < genre_entropy then min (genre_entropy / 3.32) 1 else 0

structure DiversityScores where
  artist_diversity_score : ℝ
  mood_diversity_score : ℝ

/-- Embeds `calculate_diversity_scores` (both scores rounded to 3 decimals
at lines 307-308). -/
noncomputable def calculate_diversity_scores
    (artists : List Artist) (genres : List (String × ℚ)) : DiversityScores :=
  { artist_diversity_score := pyRound3 (artistDiversityUnrounded artists)
    mood_diversity_score := pyRound3 (moodDiversityUnrounded genres) }

/-- The number of distinct artists in a batch, as the specification's
`distinct_artist_count` reads (the source instead uses `len(artists)`,
which counts duplicate records). -/
def distinctArtistCount (artists : List Artist) : Nat :=
  (artists.map (fun a => a.id)).dedup.length

/-- Modelled from the spec (for comparison with the source): the mood/genre
diversity score as §4.1 words it — Shannon entropy of the genre-fraction
distribution normalised by dividing by `log2(10)` and clamped to `[0,1]`. -/
noncomputable def moodDiversitySpec (genres : List (String × ℚ)) : ℝ :=
  min (max (genreEntropy (genres.map (fun p => ((p.2 : ℚ) : ℝ))) / Real.logb 2 10) 0) 1

/-! ## Task Execution Framework: Celery retry configuration

`SpotifyTask` (spotify_tasks.py lines 20-24) and `InsightTask`
(insight_tasks.py lines 25-29) both declare `autoretry_for = (Exception,)`,
so any exception raised by a task body that derives from `Exception`
(in particular every `ValueError` the bodies raise) is automatically
retried while the retry count is below `max_retries`. -/

inductive PyExcClass
  | exceptionBase
  | valueError
deriving DecidableEq, Repr

/-- Python subclass test between the modelled exception classes:
`ValueError` derives from `Exception`. -/
def PyExcClass.isSubclassOf : PyExcClass → PyExcClass → Bool
  | _, .exceptionBase => true
  | .valueError, .valueError => true
  | .exceptionBase, .valueError => false

/-- An exception value: its class and `str(e)`. -/
structure PyError where
  cls : PyExcClass
  msg : String
deriving DecidableEq, Repr

structure RetryPolicy where
  autoretry_for : List PyExcClass
  max_retries : Nat
  countdown : Nat
  retry_backoff : Bool
deriving DecidableEq, Repr

/-- `class SpotifyTask(Task)`: `autoretry_for = (Exception,)`,
`retry_kwargs = {'max_retries': 3, 'countdown': 60}`, `retry_backoff = True`
(spotify_tasks.py lines 20-24). -/
def SpotifyTask.retryPolicy : RetryPolicy :=
  { autoretry_for := [.exceptionBase], max_retries := 3,
    countdown := 60, retry_backoff := true }

/-- `class InsightTask(Task)`: `autoretry_for = (Exception,)`,
`retry_kwargs = {'max_retries': 2, 'countdown': 30}`, `retry_backoff = True`
(insight_tasks.py lines 25-29). -/
def InsightTask.retryPolicy : RetryPolicy :=
  { autoretry_for := [.exceptionBase], max_retries := 2,
    countdown := 30, retry_backoff := true }

/-- Celery's autoretry decision: an exception escaping the task body is
retried iff its class matches `autoretry_for` and the retry count is still
below `max_retries`. -/
def willAutoRetry (p : RetryPolicy) (e : PyExcClass) (retriesSoFar : Nat) : Bool :=
  p.autoretry_for.any (fun c => e.isSubclassOf c) && decide (retriesSoFar < p.max_retries)

/-! ## BackgroundJob status writes

`BackgroundJob.status` is a string column with declared default `"pending"`
(database_models.py line 209); the four values in use are
pending/running/success/failed.  A task run is modelled by the ordered list
of `(status, error_message)` writes it performs on its job record. -/

inductive JobStatus
  | pending
  | running
  | success
  | failed
deriving DecidableEq, Repr

/-- The declared column default of `BackgroundJob.status`
(database_models.py line 209) — the state of the job state machine before
a task performs its first write. -/
def BackgroundJob.defaultStatus : JobStatus := .pending

structure JobWrite where
  status : JobStatus
  error_message : Option String
deriving DecidableEq, Repr

def JobStatus.isTerminal : JobStatus → Bool
  | .success => true
  | .failed => true
  | _ => false

/-- Collapse adjacent equal statuses, leaving the sequence of distinct
states the record passes through. -/
def dedupAdj : List JobStatus → List JobStatus
  | [] => []
  | [a] => [a]
  | a :: b :: rest => if a = b then dedupAdj (b :: rest) else a :: dedupAdj (b :: rest)

/-- Once a terminal status has been written, every later write carries the
same status. -/
def terminalStable : List JobStatus → Bool
  | [] => true
  | s :: rest => if s.isTerminal then rest.all (fun t => t == s) else terminalStable rest

/-- The last write of the run left the record in a terminal status. -/
def endsTerminal (ws : List JobWrite) : Bool :=
  match ws.getLast? with
  | some w => w.status.isTerminal
  | none => false

/-! ## `ingest_listening_data` (spotify_tasks.py lines 312-441)

The task body is modelled as a function of an environment recording the
database contents and the outcomes of the external calls.  Database
reads/writes themselves are modelled as infallible (§7 treats an
unreachable store as an infrastructure failure outside the task body's own
ledger).  The `user_id` argument is taken as an already-valid id:
an invalid uuid string raises inside the `BackgroundJob(...)` constructor
arguments at line 331, before any Job Record exists, so such invocations
create no record and fall outside the per-record lifecycle properties. -/

structure TokenRecord where
  /-- Whether `expires_at <= datetime.now()` at the check on line 353. -/
  expired : Bool
  access_token : String
deriving DecidableEq, Repr

inductive TimeRange
  | short_term
  | medium_term
  | long_term
deriving DecidableEq, Repr

/-- `TimeRange(time_range)` (spotify_tasks.py line 391): raises `ValueError`
on a string that is not one of the three enum values. -/
def TimeRange.ofString? (s : String) : Option TimeRange :=
  if s = "short_term" then some .short_term
  else if s = "medium_term" then some .medium_term
  else if s = "long_term" then some .long_term
  else none

structure Track where
  id : String
deriving DecidableEq, Repr

structure IngestEnv where
  /-- The user's `SpotifyToken` row, if any (query on lines 341-343). -/
  tokenRecord : Option TokenRecord
  /-- Outcome of `refresh_spotify_token` (line 354): new token or `None`. -/
  refreshResult : Option String
  /-- Outcome of `fetch_top_tracks` (line 370). -/
  topTracks : Except PyError (List Track)
  /-- Outcome of `fetch_top_artists` (line 373). -/
  topArtists : Except PyError (List Artist)
  /-- Outcome of `fetch_audio_features` (line 378). -/
  audioFeatures : Except PyError (List TrackFeatures)
  /-- The `time_range` task argument. -/
  time_range : String

structure IngestResult where
  tracks_analyzed : Nat
  artists_analyzed : Nat
deriving DecidableEq, Repr

structure IngestRun where
  /-- Ordered status writes to the task's own `BackgroundJob` record. -/
  jobWrites : List JobWrite
  result : Except PyError IngestResult
  /-- Number of `ListeningSnapshot` rows the run inserted.  (The snapshot
  payload is produced by the Aggregation Engine functions defined above.) -/
  snapshotsCreated : Nat
deriving Repr

/-- Embeds the `ingest_listening_data` task body.  The job record is
created with `status="running"` (lines 327-337) before any fallible work;
the missing-token and failed-refresh paths write `failed` inline (lines
345-350, 355-360) and then raise, so the `except` handler (lines 428-437)
writes `failed` with `str(e)` — the same message — a second time; any other
exception is recorded once by the handler; the success path writes
`success` (lines 404-412) after inserting the snapshot. -/
def ingest_listening_data (env : IngestEnv) : IngestRun :=
  let w0 : List JobWrite := [⟨.running, none⟩]
  match env.tokenRecord with
  | none =>
    let m := "No Spotify token found for user"
    { jobWrites := w0 ++ [⟨.failed, some m⟩, ⟨.failed, some m⟩],
      result := .error ⟨.valueError, m⟩, snapshotsCreated := 0 }
  | some tok =>
    if tok.expired ∧ env.refreshResult = none then
      let m := "Failed to refresh expired token"
      { jobWrites := w0 ++ [⟨.failed, some m⟩, ⟨.failed, some m⟩],
        result := .error ⟨.valueError, m⟩, snapshotsCreated := 0 }
    else
      match env.topTracks with
      | .error e =>
        { jobWrites := w0 ++ [⟨.failed, some e.msg⟩],
          result := .error e, snapshotsCreated := 0 }
      | .ok top_tracks =>
        match env.topArtists with
        | .error e =>
          { jobWrites := w0 ++ [⟨.failed, some e.msg⟩],
            result := .error e, snapshotsCreated := 0 }
        | .ok top_artists =>
          match env.audioFeatures with
          | .error e =>
            { jobWrites := w0 ++ [⟨.failed, some e.msg⟩],
              result := .error e, snapshotsCreated := 0 }
          | .ok _audio_features =>
            match TimeRange.ofString? env.time_range with
            | none =>
              let m := env.time_range ++ " is not a valid TimeRange"
              { jobWrites := w0 ++ [⟨.failed, some m⟩],
                result := .error ⟨.valueError, m⟩, snapshotsCreated := 0 }
            | some _tr =>
              { jobWrites := w0 ++ [⟨.success, none⟩],
                result := .ok ⟨top_tracks.length, top_artists.length⟩,
                snapshotsCreated := 1 }

/-! ## Insight tasks (insight_tasks.py)

`generate_wellness_insight` (lines 114-273) and `generate_roast`
(lines 276-421) create a job record with `status="running"`, load the
snapshot, build the LLM chain and persist a `GeneratedInsight` row on
success; `generate_productivity_insight` (lines 424-513) performs the same
snapshot/LLM/insight steps but never creates a `BackgroundJob` record. -/

inductive InsightType
  | wellness
  | roast
  | productivity
deriving DecidableEq, Repr

structure SnapshotRow where
  user_id : Nat
deriving DecidableEq, Repr

structure InsightRow where
  id : Nat
  insight_type : InsightType
  tone_mode : String
deriving DecidableEq, Repr

structure InsightEnv where
  /-- The `ListeningSnapshot` row matching the given snapshot id, if any. -/
  snapshot : Option SnapshotRow
  /-- Whether `OPENAI_API_KEY` is set (`get_llm_client` raises otherwise,
  insight_tasks.py lines 59-61). -/
  apiKeyPresent : Bool
  /-- Outcome of `chain.invoke` — transport or output-parsing failures
  surface here; on success, the generated content. -/
  llmOutcome : Except PyError String
  /-- The id the store assigns to the inserted `GeneratedInsight` row. -/
  newInsightId : Nat
  /-- The `tone_mode` task argument of the wellness task. -/
  tone_mode : String

structure InsightResult where
  insight_id : Nat
deriving DecidableEq, Repr

structure InsightRun where
  jobWrites : List JobWrite
  result : Except PyError InsightResult
  insightsCreated : List InsightRow
deriving Repr

/-- Embeds `generate_wellness_insight`: job record created with
`status="running"` (lines 130-139); missing snapshot writes `failed`
inline (lines 147-152) and raises, so the handler (lines 260-268) repeats
the `failed` write; missing api key or a failing LLM call is recorded once
by the handler; on success a `GeneratedInsight` row is inserted and the
job is moved to `success` with the new insight id in its result payload
(lines 221-245). -/
def generate_wellness_insight (env : InsightEnv) : InsightRun :=
  let w0 : List JobWrite := [⟨.running, none⟩]
  match env.snapshot with
  | none =>
    let m := "Snapshot not found"
    { jobWrites := w0 ++ [⟨.failed, some m⟩, ⟨.failed, some m⟩],
      result := .error ⟨.valueError, m⟩, insightsCreated := [] }
  | some _snap =>
    if env.apiKeyPresent then
      match env.llmOutcome with
      | .error e =>
        { jobWrites := w0 ++ [⟨.failed, some e.msg⟩],
          result := .error e, insightsCreated := [] }
      | .ok _content =>
        { jobWrites := w0 ++ [⟨.success, none⟩],
          result := .ok ⟨env.newInsightId⟩,
          insightsCreated := [⟨env.newInsightId, .wellness, env.tone_mode⟩] }
    else
      let m := "OPENAI_API_KEY not found in environment"
      { jobWrites := w0 ++ [⟨.failed, some m⟩],
        result := .error ⟨.valueError, m⟩, insightsCreated := [] }

/-- Embeds `generate_roast` (insight_tasks.py lines 276-421): structurally
identical to the wellness task, with insight type `roast` and tone mode
`"roast"` (line 377). -/
def generate_roast (env : InsightEnv) : InsightRun :=
  let w0 : List JobWrite := [⟨.running, none⟩]
  match env.snapshot with
  | none =>
    let m := "Snapshot not found"
    { jobWrites := w0 ++ [⟨.failed, some m⟩, ⟨.failed, some m⟩],
      result := .error ⟨.valueError, m⟩, insightsCreated := [] }
  | some _snap =>
    if env.apiKeyPresent then
      match env.llmOutcome with
      | .error e =>
        { jobWrites := w0 ++ [⟨.failed, some e.msg⟩],
          result := .error e, insightsCreated := [] }
      | .ok _content =>
        { jobWrites := w0 ++ [⟨.success, none⟩],
          result := .ok ⟨env.newInsightId⟩,
          insightsCreated := [⟨env.newInsightId, .roast, "roast"⟩] }
    else
      let m := "OPENAI_API_KEY not found in environment"
      { jobWrites := w0 ++ [⟨.failed, some m⟩],
        result := .error ⟨.valueError, m⟩, insightsCreated := [] }

/-- Embeds `generate_productivity_insight` (insight_tasks.py lines
424-513): the body performs the snapshot lookup, LLM call and insight
insert, but — unlike the other two insight tasks — it never constructs a
`BackgroundJob`, so `jobWrites` is empty on every path. -/
def generate_productivity_insight (env : InsightEnv) : InsightRun :=
  match env.snapshot with
  | none =>
    { jobWrites := [], result := .error ⟨.valueError, "Snapshot not found"⟩,
      insightsCreated := [] }
  | some _snap =>
    if env.apiKeyPresent then
      match env.llmOutcome with
      | .error e =>
        { jobWrites := [], result := .error e, insightsCreated := [] }
      | .ok _content =>
        { jobWrites := [], result := .ok ⟨env.newInsightId⟩,
          insightsCreated := [⟨env.newInsightId, .productivity, "analytical"⟩] }
    else
      { jobWrites := [],
        result := .error ⟨.valueError, "OPENAI_API_KEY not found in environment"⟩,
        insightsCreated := [] }

/-! ## Job-record lifecycle properties -/

/-- The ordered sequence of status values `ingest_listening_data` writes to
its job record. -/
def ingestStatusSeq (env : IngestEnv) : List JobStatus :=
  (ingest_listening_data env).jobWrites.map (fun w => w.status)

/-- Every run of the ingestion task writes one of three shapes to its job
record: running-success, running-failed (handler only), or
running-failed-failed (inline write plus handler repeating the same
message). -/
theorem ingest_jobWrites_shape (env : IngestEnv) :
    (ingest_listening_data env).jobWrites = [⟨.running, none⟩, ⟨.success, none⟩] ∨
    (∃ m, (ingest_listening_data env).jobWrites =
        [⟨.running, none⟩, ⟨.failed, some m⟩]) ∨
    (∃ m, (ingest_listening_data env).jobWrites =
        [⟨.running, none⟩, ⟨.failed, some m⟩, ⟨.failed, some m⟩]) := by
  obtain ⟨tok, refr, tt, ta, af, tr⟩ := env
  rcases tok with _ | tok
  · exact .inr (.inr ⟨_, rfl⟩)
  · simp only [ingest_listening_data]
    by_cases hexp : (tok.expired : Prop) ∧ refr = none
    · rw [if_pos hexp]
      exact .inr (.inr ⟨_, rfl⟩)
    · rw [if_neg hexp]
      rcases tt with e | tracks
      · exact .inr (.inl ⟨_, rfl⟩)
      rcases ta with e | artists
      · exact .inr (.inl ⟨_, rfl⟩)
      rcases af with e | feats
      · exact .inr (.inl ⟨_, rfl⟩)
      rcases h : TimeRange.ofString? tr with _ | t
      · simp only [h]
        exact .inr (.inl ⟨_, rfl⟩)
      · simp only [h]
        exact .inl rfl

/-- C1: for every ingestion-task invocation that creates a Job Record and
runs to completion, the record's status sequence (starting from the
declared `pending` default, the state of the machine before the task's
first write) is exactly pending → running → success or
pending → running → failed; `running` is written exactly once, as the very
first write, before any fallible work; `success` and `failed` never both
occur; and once a terminal status has been written the status never
changes again (the missing-token and failed-refresh paths rewrite `failed`
with the identical status and message). -/
theorem C1_ingest_job_status_lifecycle (env : IngestEnv) :
    (dedupAdj (BackgroundJob.defaultStatus :: ingestStatusSeq env) =
        [.pending, .running, .success] ∨
     dedupAdj (BackgroundJob.defaultStatus :: ingestStatusSeq env) =
        [.pending, .running, .failed]) ∧
    (ingestStatusSeq env).head? = some .running ∧
    (ingestStatusSeq env).count .running = 1 ∧
    ((ingestStatusSeq env).contains .success &&
      (ingestStatusSeq env).contains .failed) = false ∧
    terminalStable (ingestStatusSeq env) = true := by
  rcases ingest_jobWrites_shape env with h | ⟨m, h⟩ | ⟨m, h⟩ <;>
    simp [ingestStatusSeq, h, dedupAdj, terminalStable, BackgroundJob.defaultStatus,
      JobStatus.isTerminal, List.count_cons]

/-- A concrete environment in which the user has no stored credential. -/
def envNoToken : IngestEnv :=
  { tokenRecord := none, refreshResult := none, topTracks := .ok [],
    topArtists := .ok [], audioFeatures := .ok [], time_range := "medium_term" }

/-- C3 (amended): when the user has no stored Credential, the ingestion
task marks its Job Record `failed` with the descriptive message
"No Spotify token found for user" on the first attempt — but the raised
`ValueError` is an `Exception`, which `SpotifyTask.autoretry_for`
matches, so the task IS auto-retried (up to 3 times). -/
theorem C3_missing_token_failed_and_retried (env : IngestEnv)
    (h : env.tokenRecord = none) :
    (ingest_listening_data env).jobWrites =
      [⟨.running, none⟩,
       ⟨.failed, some "No Spotify token found for user"⟩,
       ⟨.failed, some "No Spotify token found for user"⟩] ∧
    (ingest_listening_data env).result =
      .error ⟨.valueError, "No Spotify token found for user"⟩ ∧
    "No Spotify token found for user" ≠ "" ∧
    willAutoRetry SpotifyTask.retryPolicy .valueError 0 = true := by
  obtain ⟨tok, refr, tt, ta, af, tr⟩ := env
  simp only at h
  subst h
  exact ⟨rfl, rfl, by decide, by decide⟩

theorem C3_missing_token_witness :
    envNoToken.tokenRecord = none ∧
    ((ingest_listening_data envNoToken).jobWrites =
      [⟨.running, none⟩,
       ⟨.failed, some "No Spotify token found for user"⟩,
       ⟨.failed, some "No Spotify token found for user"⟩] ∧
    (ingest_listening_data envNoToken).result =
      .error ⟨.valueError, "No Spotify token found for user"⟩ ∧
    "No Spotify token found for user" ≠ "" ∧
    willAutoRetry SpotifyTask.retryPolicy .valueError 0 = true) :=
  ⟨rfl, C3_missing_token_failed_and_retried envNoToken rfl⟩

/-- C3 counterexample to the claim as stated: the missing-credential
failure is NOT treated as non-retryable — the autoretry predicate of the
`SpotifyTask` base class does not evaluate to `false` for the raised
`ValueError` on the first attempt, because `autoretry_for = (Exception,)`
matches every exception and `0 < max_retries = 3`. -/
theorem C3_missing_token_retried_cex :
    (ingest_listening_data envNoToken).result =
      .error ⟨.valueError, "No Spotify token found for user"⟩ ∧
    ¬ (willAutoRetry SpotifyTask.retryPolicy .valueError 0 = false) :=
  ⟨rfl, by decide⟩

/-- A concrete insight-task environment whose snapshot id matches no row. -/
def envNoSnapshot : InsightEnv :=
  { snapshot := none, apiKeyPresent := true, llmOutcome := .ok "generated text",
    newInsightId := 1, tone_mode := "neutral" }

/-- C4 (amended): invoked with a snapshot id matching no stored Snapshot,
the wellness and roast tasks end their Job Record in `failed` with the
non-empty message "Snapshot not found" and create no Insight row — but the
raised `ValueError` matches `InsightTask.autoretry_for = (Exception,)`, so
the task IS auto-retried (up to 2 times); the productivity variant
likewise creates no Insight row but has no Job Record at all. -/
theorem C4_insight_missing_snapshot (env : InsightEnv)
    (h : env.snapshot = none) :
    (generate_wellness_insight env).jobWrites =
      [⟨.running, none⟩, ⟨.failed, some "Snapshot not found"⟩,
       ⟨.failed, some "Snapshot not found"⟩] ∧
    (generate_wellness_insight env).insightsCreated = [] ∧
    (generate_wellness_insight env).result =
      .error ⟨.valueError, "Snapshot not found"⟩ ∧
    (generate_roast env).jobWrites =
      [⟨.running, none⟩, ⟨.failed, some "Snapshot not found"⟩,
       ⟨.failed, some "Snapshot not found"⟩] ∧
    (generate_roast env).insightsCreated = [] ∧
    (generate_productivity_insight env).jobWrites = [] ∧
    (generate_productivity_insight env).insightsCreated = [] ∧
    "Snapshot not found" ≠ "" ∧
    willAutoRetry InsightTask.retryPolicy .valueError 0 = true := by
  obtain ⟨snap, key, llm, nid, tone⟩ := env
  simp only at h
  subst h
  exact ⟨rfl, rfl, rfl, rfl, rfl, rfl, rfl, by decide, by decide⟩

theorem C4_insight_missing_snapshot_witness :
    envNoSnapshot.snapshot = none ∧
    ((generate_wellness_insight envNoSnapshot).jobWrites =
      [⟨.running, none⟩, ⟨.failed, some "Snapshot not found"⟩,
       ⟨.failed, some "Snapshot not found"⟩] ∧
    (generate_wellness_insight envNoSnapshot).insightsCreated = [] ∧
    (generate_wellness_insight envNoSnapshot).result =
      .error ⟨.valueError, "Snapshot not found"⟩ ∧
    (generate_roast envNoSnapshot).jobWrites =
      [⟨.running, none⟩, ⟨.failed, some "Snapshot not found"⟩,
       ⟨.failed, some "Snapshot not found"⟩] ∧
    (generate_roast envNoSnapshot).insightsCreated = [] ∧
    (generate_productivity_insight envNoSnapshot).jobWrites = [] ∧
    (generate_productivity_insight envNoSnapshot).insightsCreated = [] ∧
    "Snapshot not found" ≠ "" ∧
    willAutoRetry InsightTask.retryPolicy .valueError 0 = true) :=
  ⟨rfl, C4_insight_missing_snapshot envNoSnapshot rfl⟩

/-- C4 counterexample to the claim as stated: the missing-snapshot failure
is NOT unretried — the autoretry predicate of the `InsightTask` base class
does not evaluate to `false` for the raised `ValueError` on the first
attempt (`autoretry_for = (Exception,)`, `max_retries = 2`). -/
theorem C4_insight_missing_snapshot_retried_cex :
    (generate_wellness_insight envNoSnapshot).result =
      .error ⟨.valueError, "Snapshot not found"⟩ ∧
    (generate_wellness_insight envNoSnapshot).insightsCreated = [] ∧
    ¬ (willAutoRetry InsightTask.retryPolicy .valueError 0 = false) :=
  ⟨rfl, rfl, by decide⟩

/-- A concrete insight-task environment in which every step succeeds. -/
def envInsightOk : InsightEnv :=
  { snapshot := some ⟨5⟩, apiKeyPresent := true, llmOutcome := .ok "generated text",
    newInsightId := 7, tone_mode := "neutral" }

/-- C5 (amended): every wellness and roast execution creates a Job Record
(first write `running`) and moves it to a terminal status, and a
successful result carries the id of the newly created Insight row; the
productivity task also returns the new Insight id on success but never
creates a Job Record at all. -/
theorem C5_insight_tasks_job_record (env : InsightEnv) :
    ((generate_wellness_insight env).jobWrites.head? = some ⟨.running, none⟩ ∧
     endsTerminal (generate_wellness_insight env).jobWrites = true ∧
     (∀ r, (generate_wellness_insight env).result = .ok r →
       ∃ i ∈ (generate_wellness_insight env).insightsCreated, r.insight_id = i.id)) ∧
    ((generate_roast env).jobWrites.head? = some ⟨.running, none⟩ ∧
     endsTerminal (generate_roast env).jobWrites = true ∧
     (∀ r, (generate_roast env).result = .ok r →
       ∃ i ∈ (generate_roast env).insightsCreated, r.insight_id = i.id)) ∧
    ((generate_productivity_insight env).jobWrites = [] ∧
     (∀ r, (generate_productivity_insight env).result = .ok r →
       ∃ i ∈ (generate_productivity_insight env).insightsCreated, r.insight_id = i.id)) := by
  obtain ⟨snap, key, llm, nid, tone⟩ := env
  rcases snap with _ | snap <;> rcases key <;> rcases llm with e | content <;>
    simp [generate_wellness_insight, generate_roast, generate_productivity_insight,
      endsTerminal, JobStatus.isTerminal]

theorem C5_insight_tasks_witness :
    (generate_productivity_insight envInsightOk).jobWrites = [] ∧
    (∃ i ∈ (generate_productivity_insight envInsightOk).insightsCreated,
      (InsightResult.mk 7).insight_id = i.id) :=
  ⟨(C5_insight_tasks_job_record envInsightOk).2.2.1,
   (C5_insight_tasks_job_record envInsightOk).2.2.2 ⟨7⟩ rfl⟩

/-- C5 counterexample to the claim as stated: a fully successful
productivity-insight execution produces no Job Record transition at all —
its run performs zero job-record writes, so no record is created or moved
to a terminal status, even though the task result does carry the new
Insight id. -/
theorem C5_productivity_no_job_record_cex :
    (generate_productivity_insight envInsightOk).result = .ok ⟨7⟩ ∧
    (generate_productivity_insight envInsightOk).jobWrites = [] ∧
    endsTerminal (generate_productivity_insight envInsightOk).jobWrites = false :=
  ⟨rfl, rfl, rfl⟩

/-! ## Concrete evaluations of the rounding helpers -/

theorem pyRound3_zero {α : Type} [LinearOrderedField α] [FloorRing α] :
    pyRound3 (0 : α) = 0 := by
  rw [show (0 : α) = ((0 : ℤ) : α) / 1000 by norm_num, pyRound3_int_div]

theorem pyRound3_one {α : Type} [LinearOrderedField α] [FloorRing α] :
    pyRound3 (1 : α) = 1 := by
  rw [show (1 : α) = ((1000 : ℤ) : α) / 1000 by norm_num, pyRound3_int_div]

/-! ## C2: the mood-classification scenario track -/

/-- The scenario track of §8: valence 0.8, energy 0.8, danceability 0.7,
acousticness 0.1, speechiness 0.1 (remaining fields absent). -/
def scenarioTrack : TrackFeatures :=
  { valence := some (4/5), energy := some (4/5), danceability := some (7/10),
    acousticness := some (1/10), speechiness := some (1/10) }

theorem scenarioTrack_moods :
    trackHasMood scenarioTrack .happy = true ∧
    trackHasMood scenarioTrack .sad = false ∧
    trackHasMood scenarioTrack .energetic = true ∧
    trackHasMood scenarioTrack .calm = false ∧
    trackHasMood scenarioTrack .focused = false ∧
    trackHasMood scenarioTrack .other = false := by
  refine ⟨?_, ?_, ?_, ?_, ?_, ?_⟩ <;> norm_num [trackHasMood, scenarioTrack]

theorem moodPatternsScenarioEval :
    calculate_mood_patterns [scenarioTrack] =
      [(.happy, ⟨1, 1⟩), (.energetic, ⟨1, 1⟩)] := by
  obtain ⟨h1, h2, h3, h4, h5, h6⟩ := scenarioTrack_moods
  simp [calculate_mood_patterns, moodCount, List.countP_cons, List.countP_nil,
    h1, h2, h3, h4, h5, h6, pyRound3_one]

/-- C2 (amended): the scenario track (valence 0.8, energy 0.8,
danceability 0.7, acousticness 0.1, speechiness 0.1) is labeled happy and
energetic simultaneously (multi-label) and not "other" — but not focused,
because the focused rule requires energy ≤ 0.7 while the track's energy is
0.8. -/
theorem C2_mood_scenario_labels :
    calculate_mood_patterns [scenarioTrack] =
      [(.happy, ⟨1, 1⟩), (.energetic, ⟨1, 1⟩)] ∧
    ((calculate_mood_patterns [scenarioTrack]).map Prod.fst).contains .other = false := by
  refine ⟨moodPatternsScenarioEval, ?_⟩
  rw [moodPatternsScenarioEval]
  rfl

/-- C2 counterexample to the claim as stated: the scenario track is NOT
assigned the focused label — no mood-pattern entry for `focused` exists in
the classification of the single-track batch, since `0.3 <= energy <= 0.7`
fails at energy 0.8. -/
theorem C2_mood_scenario_not_focused_cex :
    ¬ (∃ e, (MoodLabel.focused, e) ∈ calculate_mood_patterns [scenarioTrack]) := by
  rintro ⟨e, he⟩
  rw [moodPatternsScenarioEval] at he
  simp [Prod.ext_iff] at he

/-- C6: on the empty input batch every Aggregation Engine function returns
its zero/empty result and never raises: the statistics map is empty, the
genre distribution is empty, the mood-pattern map is empty, and both
diversity scores are 0.0. -/
theorem C6_aggregation_empty_input :
    (∀ f, calculate_audio_feature_stats [] f = none) ∧
    extract_genre_distribution [] = [] ∧
    calculate_mood_patterns [] = [] ∧
    (calculate_diversity_scores [] []).artist_diversity_score = 0 ∧
    (calculate_diversity_scores [] []).mood_diversity_score = 0 := by
  refine ⟨fun f => rfl, rfl, rfl, ?_, ?_⟩
  · show pyRound3 (artistDiversityUnrounded []) = 0
    rw [show artistDiversityUnrounded [] = 0 by
      simp [artistDiversityUnrounded]]
    exact pyRound3_zero
  · show pyRound3 (moodDiversityUnrounded []) = 0
    rw [show moodDiversityUnrounded [] = 0 by
      simp [moodDiversityUnrounded, genreEntropy]]
    exact pyRound3_zero

/-! ## C8: artist diversity -/

/-- A batch containing the same artist record twice. -/
def dupArtists : List Artist := [⟨"a", []⟩, ⟨"a", []⟩]

/-- A batch of two distinct artists. -/
def twoArtists : List Artist := [⟨"a", []⟩, ⟨"b", []⟩]

def artistBatch50 : List Artist :=
  (List.range 50).map (fun i => { id := toString i, genres := [] })

def artistBatch10 : List Artist :=
  (List.range 10).map (fun i => { id := toString i, genres := [] })

/-- C8 counterexample to the claim as stated: for the batch holding the
same artist twice, the code's score (computed from `len(artists)`, the
record count) is 0.04, while the claimed formula over the distinct artist
count gives 0.02. -/
theorem C8_artist_diversity_duplicates_cex :
    (calculate_diversity_scores dupArtists []).artist_diversity_score = 1/25 ∧
    min ((distinctArtistCount dupArtists : ℝ) / 50) 1 = 1/50 ∧
    ((1 : ℝ)/25) ≠ 1/50 := by
  refine ⟨?_, ?_, by norm_num⟩
  · show pyRound3 (artistDiversityUnrounded dupArtists) = 1/25
    rw [show artistDiversityUnrounded dupArtists = 1/25 by
      rw [artistDiversityUnrounded, show dupArtists.length = 2 from rfl]
      rw [min_eq_left (by norm_num)]
      norm_num]
    rw [show (1/25 : ℝ) = ((40 : ℤ) : ℝ) / 1000 by norm_num, pyRound3_int_div]
  · rw [show distinctArtistCount dupArtists = 1 by rfl]
    rw [min_eq_left (by norm_num)]
    norm_num

/-- C8 (amended): the artist diversity score is
`min(record_count / 50, 1.0)` over the length of the batch; whenever the
batch's artist ids are distinct this equals `min(distinct_artist_count /
50, 1.0)`; a batch of 50 artists scores exactly 1.0 and a batch of 10
artists exactly 0.2. -/
theorem C8_artist_diversity_amended :
    (∀ (artists : List Artist) (genres : List (String × ℚ)),
      (artists.map (fun a => a.id)).Nodup →
      (calculate_diversity_scores artists genres).artist_diversity_score =
        pyRound3 (min ((distinctArtistCount artists : ℝ) / 50) 1)) ∧
    (calculate_diversity_scores artistBatch50 []).artist_diversity_score = 1 ∧
    (calculate_diversity_scores artistBatch10 []).artist_diversity_score = 1/5 := by
  refine ⟨?_, ?_, ?_⟩
  · intro artists genres h
    have hd : distinctArtistCount artists = artists.length := by
      rw [distinctArtistCount, List.Nodup.dedup h, List.length_map]
    show pyRound3 (artistDiversityUnrounded artists) = _
    rw [artistDiversityUnrounded, hd]
  · show pyRound3 (artistDiversityUnrounded artistBatch50) = 1
    rw [show artistDiversityUnrounded artistBatch50 = 1 by
      rw [artistDiversityUnrounded,
        show artistBatch50.length = 50 by simp [artistBatch50]]
      norm_num]
    exact pyRound3_one
  · show pyRound3 (artistDiversityUnrounded artistBatch10) = 1/5
    rw [show artistDiversityUnrounded artistBatch10 = 1/5 by
      rw [artistDiversityUnrounded,
        show artistBatch10.length = 10 by simp [artistBatch10]]
      rw [min_eq_left (by norm_num)]
      norm_num]
    rw [show (1/5 : ℝ) = ((200 : ℤ) : ℝ) / 1000 by norm_num, pyRound3_int_div]

theorem C8_artist_diversity_witness :
    (twoArtists.map (fun a => a.id)).Nodup ∧
    (calculate_diversity_scores twoArtists []).artist_diversity_score =
      pyRound3 (min ((distinctArtistCount twoArtists : ℝ) / 50) 1) := by
  have h : (twoArtists.map (fun a => a.id)).Nodup := by
    simp [twoArtists]
  exact ⟨h, C8_artist_diversity_amended.1 twoArtists [] h⟩

/-! ## C9: audio-feature statistics -/

theorem foldl_min_le_init (xs : List ℚ) (acc : ℚ) : xs.foldl min acc ≤ acc := by
  induction xs generalizing acc with
  | nil => exact le_refl acc
  | cons y ys ih =>
    calc (y :: ys).foldl min acc = ys.foldl min (min acc y) := rfl
    _ ≤ min acc y := ih (min acc y)
    _ ≤ acc := min_le_left acc y

theorem foldl_min_le_mem (xs : List ℚ) (acc a : ℚ) (ha : a ∈ xs) :
    xs.foldl min acc ≤ a := by
  induction xs generalizing acc with
  | nil => cases ha
  | cons y ys ih =>
    rcases List.mem_cons.mp ha with rfl | hmem
    · calc (a :: ys).foldl min acc = ys.foldl min (min acc a) := rfl
      _ ≤ min acc a := foldl_min_le_init ys (min acc a)
      _ ≤ a := min_le_right acc a
    · exact ih (min acc y) hmem

theorem init_le_foldl_max (xs : List ℚ) (acc : ℚ) : acc ≤ xs.foldl max acc := by
  induction xs generalizing acc with
  | nil => exact le_refl acc
  | cons y ys ih =>
    calc acc ≤ max acc y := le_max_left acc y
    _ ≤ ys.foldl max (max acc y) := ih (max acc y)
    _ = (y :: ys).foldl max acc := rfl

theorem mem_le_foldl_max (xs : List ℚ) (acc a : ℚ) (ha : a ∈ xs) :
    a ≤ xs.foldl max acc := by
  induction xs generalizing acc with
  | nil => cases ha
  | cons y ys ih =>
    rcases List.mem_cons.mp ha with rfl | hmem
    · calc a ≤ max acc a := le_max_right acc a
      _ ≤ ys.foldl max (max acc a) := init_le_foldl_max ys (max acc a)
      _ = (a :: ys).foldl max acc := rfl
    · exact ih (max acc y) hmem

theorem listMin_le_mem (l : List ℚ) (a : ℚ) (ha : a ∈ l) : listMin l ≤ a := by
  cases l with
  | nil => cases ha
  | cons x xs =>
    rcases List.mem_cons.mp ha with rfl | hmem
    · exact foldl_min_le_init xs a
    · exact foldl_min_le_mem xs x a hmem

theorem mem_le_listMax (l : List ℚ) (a : ℚ) (ha : a ∈ l) : a ≤ listMax l := by
  cases l with
  | nil => cases ha
  | cons x xs =>
    rcases List.mem_cons.mp ha with rfl | hmem
    · exact init_le_foldl_max xs a
    · exact mem_le_foldl_max xs x a hmem

theorem listMin_le_listMean (l : List ℚ) (h : l ≠ []) : listMin l ≤ listMean l := by
  have hlen : 0 < (l.length : ℚ) := by
    exact_mod_cast List.length_pos.mpr h
  rw [listMean, le_div_iff₀ hlen]
  have hs : l.length • listMin l ≤ l.sum :=
    List.card_nsmul_le_sum l (listMin l) (fun a ha => listMin_le_mem l a ha)
  calc listMin l * (l.length : ℚ) = l.length • listMin l := by
        rw [nsmul_eq_mul, mul_comm]
    _ ≤ l.sum := hs

theorem listMean_le_listMax (l : List ℚ) (h : l ≠ []) : listMean l ≤ listMax l := by
  have hlen : 0 < (l.length : ℚ) := by
    exact_mod_cast List.length_pos.mpr h
  rw [listMean, div_le_iff₀ hlen]
  have hs : l.sum ≤ l.length • listMax l :=
    List.sum_le_card_nsmul l (listMax l) (fun a ha => mem_le_listMax l a ha)
  calc l.sum ≤ l.length • listMax l := hs
    _ = listMax l * (l.length : ℚ) := by rw [nsmul_eq_mul, mul_comm]

/-- C9: for every non-empty feature batch and every feature reported by at
least one track, the statistics entry exists, its mean is the mean of
exactly the reported values and lies within the entry's [min, max], the
standard deviation is exactly 0 when exactly one sample is present, and
the entry is unchanged by adding a track that does not report the feature
(missing values are skipped, not treated as zero). -/
theorem C9_audio_feature_stats (batch : List TrackFeatures) (f : FeatureName)
    (hb : batch ≠ []) (hv : featureValues batch f ≠ []) :
    ∃ s, calculate_audio_feature_stats batch f = some s ∧
      s.avg = listMean (featureValues batch f) ∧
      s.min ≤ s.avg ∧ s.avg ≤ s.max ∧
      ((featureValues batch f).length = 1 → s.std = 0) ∧
      (∀ t, t.get f = none →
        calculate_audio_feature_stats (t :: batch) f = some s) := by
  have hbe : batch.isEmpty = false := by
    cases batch with
    | nil => exact absurd rfl hb
    | cons x xs => rfl
  have hve : (featureValues batch f).isEmpty = false := by
    cases hfv : featureValues batch f with
    | nil => exact absurd hfv hv
    | cons x xs => rfl
  refine ⟨{ avg := listMean (featureValues batch f),
            std := if 1 < (featureValues batch f).length then
              sampleStdev (featureValues batch f) else 0,
            min := listMin (featureValues batch f),
            max := listMax (featureValues batch f) }, ?_, rfl, ?_, ?_, ?_, ?_⟩
  · simp only [calculate_audio_feature_stats, hbe, hve, Bool.false_eq_true, if_false]
  · exact listMin_le_listMean _ hv
  · exact listMean_le_listMax _ hv
  · intro h1
    simp only [h1]
    norm_num
  · intro t ht
    have hvals : featureValues (t :: batch) f = featureValues batch f := by
      rw [featureValues, List.filterMap_cons, ht]
      rfl
    rw [calculate_audio_feature_stats]
    simp only [List.isEmpty_cons, Bool.false_eq_true, if_false, hvals, hve]

/-- A single-track batch reporting only valence. -/
def singleTrackBatch : List TrackFeatures := [{ valence := some (1/2) }]

theorem C9_audio_feature_stats_witness :
    singleTrackBatch ≠ [] ∧
    featureValues singleTrackBatch .valence ≠ [] ∧
    (∃ s, calculate_audio_feature_stats singleTrackBatch .valence = some s ∧
      s.avg = listMean (featureValues singleTrackBatch .valence) ∧
      s.min ≤ s.avg ∧ s.avg ≤ s.max ∧
      ((featureValues singleTrackBatch .valence).length = 1 → s.std = 0) ∧
      (∀ t, t.get .valence = none →
        calculate_audio_feature_stats (t :: singleTrackBatch) .valence = some s)) := by
  have h1 : singleTrackBatch ≠ [] := by simp [singleTrackBatch]
  have h2 : featureValues singleTrackBatch .valence ≠ [] := by
    simp [singleTrackBatch, featureValues, TrackFeatures.get]
  exact ⟨h1, h2, C9_audio_feature_stats singleTrackBatch .valence h1 h2⟩

/-! ## C10: rounding granularity of everything the engine emits -/

/-- One artist carrying three genre tags, each occurring once: every
fraction rounds to 0.333 and the emitted fractions sum to 0.999, not 1. -/
def threeGenreArtist : List Artist := [⟨"x", ["a", "b", "c"]⟩]

theorem genreSum_threeGenreArtist :
    ((extract_genre_distribution threeGenreArtist).map (fun p => p.2)).sum =
      999/1000 := by
  have hp3 : pyRound3 ((1 : ℚ) / 3) = 333/1000 := by
    rw [pyRound3_eq_down (1/3 : ℚ) 333 (by norm_num) (by norm_num)]
    norm_num
  have hdist : extract_genre_distribution threeGenreArtist =
      (List.mergeSort [("a", (333 : ℚ)/1000), ("b", 333/1000), ("c", 333/1000)]
        (fun a b => decide (b.2 ≤ a.2))).take 10 := by
    simp only [extract_genre_distribution]
    rw [show genreCounts threeGenreArtist = [("a", 1), ("b", 1), ("c", 1)] from rfl]
    norm_num [hp3]
  rw [hdist]
  have hlen : (List.mergeSort [("a", (333 : ℚ)/1000), ("b", 333/1000), ("c", 333/1000)]
      (fun a b => decide (b.2 ≤ a.2))).length ≤ 10 := by
    rw [(List.mergeSort_perm _ _).length_eq]
    simp
  rw [List.take_of_length_le hlen]
  have hperm := (List.mergeSort_perm
    [("a", (333 : ℚ)/1000), ("b", 333/1000), ("c", 333/1000)]
    (fun a b => decide (b.2 ≤ a.2))).map (fun p => p.2)
  rw [hperm.sum_eq]
  norm_num

/-- C10: every fractional value the Aggregation Engine emits is a multiple
of 0.001 — genre-distribution fractions, mood-pattern percentages (each
exactly the 3-decimal rounding of count/total), and both diversity
scores — while mood-pattern track counts are the exact integer counts; and
the emitted genre fractions need not sum to 1.0 (they sum to 0.999 for
three equally frequent genres). -/
theorem C10_rounding_granularity :
    (∀ (artists : List Artist) (p : String × ℚ),
        p ∈ extract_genre_distribution artists → ∃ k : ℤ, p.2 = (k : ℚ) / 1000) ∧
    (∀ (batch : List TrackFeatures) (l : MoodLabel) (e : MoodEntry),
        (l, e) ∈ calculate_mood_patterns batch →
        e.percentage = pyRound3 ((e.track_count : ℚ) / (batch.length : ℚ)) ∧
        ∃ k : ℤ, e.percentage = (k : ℚ) / 1000) ∧
    (∀ (artists : List Artist) (genres : List (String × ℚ)),
        (∃ k : ℤ, (calculate_diversity_scores artists genres).artist_diversity_score
            = (k : ℝ) / 1000) ∧
        (∃ k : ℤ, (calculate_diversity_scores artists genres).mood_diversity_score
            = (k : ℝ) / 1000)) ∧
    ((extract_genre_distribution threeGenreArtist).map (fun p => p.2)).sum ≠ 1 := by
  refine ⟨?_, ?_, ?_, ?_⟩
  · intro artists p hp
    simp only [extract_genre_distribution] at hp
    split at hp
    · cases hp
    · have hp2 := List.mem_of_mem_take hp
      have hp3 := (List.mergeSort_perm _ _).mem_iff.mp hp2
      obtain ⟨q, hq, hpe⟩ := List.mem_map.mp hp3
      rw [← hpe]
      exact pyRound3_exists_int _
  · intro batch l e he
    simp only [calculate_mood_patterns] at he
    split at he
    · cases he
    · obtain ⟨l', hl', hfn⟩ := List.mem_filterMap.mp he
      by_cases hc : moodCount batch l' > 0
      · rw [if_pos hc] at hfn
        injection hfn with hfn2
        cases hfn2
        exact ⟨rfl, pyRound3_exists_int _⟩
      · rw [if_neg hc] at hfn
        cases hfn
  · intro artists genres
    exact ⟨pyRound3_exists_int _, pyRound3_exists_int _⟩
  · rw [genreSum_threeGenreArtist]
    norm_num

theorem C10_rounding_granularity_witness :
    ((MoodLabel.happy, (⟨1, 1⟩ : MoodEntry)) ∈ calculate_mood_patterns [scenarioTrack]) ∧
    ((⟨1, 1⟩ : MoodEntry).percentage =
      pyRound3 ((((⟨1, 1⟩ : MoodEntry).track_count : ℚ)) / (([scenarioTrack].length : ℚ))) ∧
     ∃ k : ℤ, (⟨1, 1⟩ : MoodEntry).percentage = (k : ℚ) / 1000) := by
  have hm : (MoodLabel.happy, (⟨1, 1⟩ : MoodEntry)) ∈ calculate_mood_patterns [scenarioTrack] := by
    rw [moodPatternsScenarioEval]
    exact List.mem_cons_self _ _
  exact ⟨hm, C10_rounding_granularity.2.1 [scenarioTrack] .happy ⟨1, 1⟩ hm⟩

/-! ## C7: the mood/genre diversity divisor -/

theorem logb_two_ten_ne_const : Real.logb 2 10 ≠ 83 / 25 := by
  intro h
  have h2 : (2 : ℝ) ^ Real.logb 2 10 = 10 :=
    Real.rpow_logb (by norm_num) (by norm_num) (by norm_num)
  rw [h] at h2
  have h3 : ((2 : ℝ) ^ ((83 : ℝ) / 25)) ^ (25 : ℝ) = (2 : ℝ) ^ (83 : ℝ) := by
    rw [← Real.rpow_mul (by norm_num : (0 : ℝ) ≤ 2)]
    norm_num
  rw [h2] at h3
  rw [show (83 : ℝ) = ((83 : ℕ) : ℝ) by norm_num,
    show (25 : ℝ) = ((25 : ℕ) : ℝ) by norm_num,
    Real.rpow_natCast, Real.rpow_natCast] at h3
  norm_num at h3

theorem one_lt_logb_two_ten : 1 < Real.logb 2 10 := by
  have h1 : Real.logb 2 2 < Real.logb 2 10 :=
    Real.logb_lt_logb (by norm_num) (by norm_num) (by norm_num)
  rwa [Real.logb_self_eq_one (by norm_num)] at h1

theorem logb_two_half : Real.logb 2 ((1 : ℝ)/2) = -1 := by
  rw [show (1 : ℝ)/2 = (2 : ℝ)⁻¹ by norm_num, Real.logb_inv,
    Real.logb_self_eq_one (by norm_num)]

/-- The two-genre distribution with fractions 0.5 and 0.5; its Shannon
entropy is exactly 1 bit. -/
def genresHalf : List (String × ℚ) := [("a", 1/2), ("b", 1/2)]

theorem genreEntropy_genresHalf :
    genreEntropy (genresHalf.map (fun p => ((p.2 : ℚ) : ℝ))) = 1 := by
  norm_num [genreEntropy, genresHalf, logb_two_half]

/-- C7 counterexample to the claim as stated: for the distribution
{a: 0.5, b: 0.5} (entropy exactly 1), the code's pre-rounding mood
diversity value (entropy divided by the literal constant 3.32) differs
from the specified value (entropy divided by log2(10) ≈ 3.3219), because
log2(10) ≠ 3.32 — otherwise 2^83 would equal 10^25. -/
theorem C7_mood_diversity_divisor_cex :
    moodDiversityUnrounded genresHalf ≠ moodDiversitySpec genresHalf := by
  have hL1 : 1 < Real.logb 2 10 := one_lt_logb_two_ten
  have hLpos : 0 < Real.logb 2 10 := lt_trans one_pos hL1
  simp only [moodDiversityUnrounded, moodDiversitySpec, genreEntropy_genresHalf]
  rw [if_pos (by norm_num : (0 : ℝ) < 1)]
  rw [min_eq_left (by norm_num : (1 : ℝ)/3.32 ≤ 1),
    max_eq_left (le_of_lt (div_pos one_pos hLpos)),
    min_eq_left ((div_le_one hLpos).mpr (le_of_lt hL1))]
  intro heq
  apply logb_two_ten_ne_const
  have h332 : (3.32 : ℝ) ≠ 0 := by norm_num
  have hLne0 : Real.logb 2 10 ≠ 0 := ne_of_gt hLpos
  field_simp at heq
  rw [heq]
  norm_num

/-- C7 (amended): for every genre-fraction list whose fractions are at
most 1, the code's pre-rounding mood diversity equals the Shannon entropy
`-Σ p·log2 p` over the nonzero fractions, normalized by dividing by the
literal constant `3.32` — an approximation of `log2(10)` but not equal to
it — and clamped to `[0, 1]`. -/
theorem C7_mood_diversity_amended (genres : List (String × ℚ))
    (h : ∀ p ∈ genres, p.2 ≤ 1) :
    moodDiversityUnrounded genres =
      min (max (genreEntropy (genres.map (fun p => ((p.2 : ℚ) : ℝ))) / 3.32) 0) 1 := by
  have hH : 0 ≤ genreEntropy (genres.map (fun p => ((p.2 : ℚ) : ℝ))) := by
    apply List.sum_nonneg
    intro x hx
    obtain ⟨v, hv, rfl⟩ := List.mem_map.mp hx
    obtain ⟨q, hq, rfl⟩ := List.mem_map.mp hv
    split
    · rename_i hqpos
      have hq1 : ((q.2 : ℚ) : ℝ) ≤ 1 := by
        have := h q hq
        exact_mod_cast this
      have hlog : Real.logb 2 ((q.2 : ℚ) : ℝ) ≤ 0 :=
        Real.logb_nonpos (by norm_num) (le_of_lt hqpos) hq1
      have : ((q.2 : ℚ) : ℝ) * Real.logb 2 ((q.2 : ℚ) : ℝ) ≤ 0 :=
        mul_nonpos_of_nonneg_of_nonpos (le_of_lt hqpos) hlog
      linarith
    · exact le_refl 0
  simp only [moodDiversityUnrounded]
  rcases lt_or_eq_of_le hH with hpos | hzero
  · rw [if_pos hpos, max_eq_left (div_nonneg (le_of_lt hpos) (by norm_num))]
  · rw [if_neg (by rw [← hzero]; exact lt_irrefl 0), ← hzero]
    norm_num

theorem C7_mood_diversity_witness :
    (∀ p ∈ genresHalf, p.2 ≤ 1) ∧
    moodDiversityUnrounded genresHalf =
      min (max (genreEntropy (genresHalf.map (fun p => ((p.2 : ℚ) : ℝ))) / 3.32) 0) 1 := by
  have h : ∀ p ∈ genresHalf, p.2 ≤ 1 := by
    intro p hp
    rcases List.mem_cons.mp hp with rfl | hp2
    · norm_num
    · rcases List.mem_cons.mp hp2 with rfl | hp3
      · norm_num
      · cases hp3
  exact ⟨h, C7_mood_diversity_amended genresHalf h⟩
